import Mathlib

/-!
Verification of the Advanced_Calculator formula-computation module
(`ComputeFormula.py`) against its natural-language specification.

The Python module is shallowly embedded below.  Conventions of the embedding:

* Python `int` and `float` values are modelled by the inductive `Val`
  (`Val.i : Int → Val` for ints, `Val.f : Rat → Val` for floats).  IEEE-754
  floats are modelled as exact rationals; every computation a claim depends on
  (small integer arithmetic, `fmod` on integers, factorial, sign tests) is
  exact in both models, so no rounding distinguishes them there.  Values of
  transcendental functions (`sin`, `cos`, `tan`, `log`, inexact `sqrt`,
  non-integral `pow`) are not rational; the embedding gives them definite
  placeholder rational results and no claim depends on those result values.
* Raised Python exceptions are modelled with `Except PyErr`; a function that
  can either `return` a user-facing string or a number returns
  `Sum String Val` inside `Except` (`.inl` = returned error string,
  `.inl`-free `.inr` = numeric result).
* Python `dict` bindings are modelled as association lists in insertion
  order (`List (String × PyObj)`); `PyObj` also has non-numeric constructors
  (`none`, `str`) so that the binding-validation code paths are meaningful.
* Regular-expression operations of the source are modelled by direct
  character scans implementing the same matching discipline on the inputs
  the module constructs (the patterns involved are literal-text patterns;
  the model of `is_well_formed`'s character class treats the inserted
  variable names as plain characters, as the source does for names free of
  regex metacharacters — all alphabetic names, the only ones the module
  accepts, are of that kind).
-/

/-- Python number/object model for binding values: `int`, `float`, `None`,
and `str` (standing for any non-numeric object, as it appears in messages). -/
inductive PyObj where
  | int (n : Int)
  | float (q : Rat)
  | none
  | str (s : String)
deriving DecidableEq, Repr

/-- A Python numeric value as produced by the evaluator: an `int` or a
`float` (floats modelled as exact rationals). -/
inductive Val where
  | i (n : Int)
  | f (q : Rat)
deriving DecidableEq, Repr

/-! Rational arithmetic is written through `mkRat`/`Rat.divInt` and the raw
`Rat.floor`/`Rat.ceil` so that every operation evaluates by kernel reduction
(the ambient field operations of `Rat` do not); the bridge lemmas in the
theorem section identify each helper with the corresponding Mathlib
operation, so abstract reasoning happens over ordinary `Rat` arithmetic. -/

/-- Embed an integer as a rational. -/
def intToRat (n : Int) : Rat :=
  mkRat n 1

/-- Kernel-computable rational addition. -/
def ratAdd (a b : Rat) : Rat :=
  mkRat (a.num * b.den + b.num * a.den) (a.den * b.den)

/-- Kernel-computable rational subtraction. -/
def ratSub (a b : Rat) : Rat :=
  mkRat (a.num * b.den - b.num * a.den) (a.den * b.den)

/-- Kernel-computable rational multiplication. -/
def ratMul (a b : Rat) : Rat :=
  mkRat (a.num * b.num) (a.den * b.den)

/-- Kernel-computable rational division. -/
def ratDiv (a b : Rat) : Rat :=
  Rat.divInt (a.num * b.den) (a.den * b.num)

/-- Kernel-computable rational negation. -/
def ratNeg (a : Rat) : Rat :=
  Rat.divInt (-a.num) a.den

/-- Kernel-computable rational absolute value. -/
def ratAbs (a : Rat) : Rat :=
  if a < 0 then ratNeg a else a

/-- Kernel-computable integer power (`Int` base, `Nat` exponent). -/
def intPowNat (x : Int) (n : Nat) : Int :=
  match n with
  | 0 => 1
  | n + 1 => x * intPowNat x n

/-- Kernel-computable rational power with natural exponent. -/
def ratNpow (q : Rat) (n : Nat) : Rat :=
  match n with
  | 0 => 1
  | n + 1 => ratMul q (ratNpow q n)

/-- Kernel-computable rational inverse. -/
def ratInv (q : Rat) : Rat :=
  Rat.divInt q.den q.num

/-- Kernel-computable rational power with integer exponent. -/
def ratZpow (q : Rat) (e : Int) : Rat :=
  if 0 ≤ e then ratNpow q e.toNat else ratNpow (ratInv q) (-e).toNat

/-- Numeric content of a value (Python's arithmetic comparisons/coercions). -/
def Val.toRat : Val → Rat
  | .i n => intToRat n
  | .f q => q

/-- Whether a value is a float. -/
def Val.isFloat : Val → Bool
  | .i _ => false
  | .f _ => true

/-- Python whitespace characters (`str.isspace`, regex `\s`), ASCII range. -/
def pySpace (c : Char) : Bool :=
  c = ' ' || c = '\t' || c = '\n' || c = '\r' || c = '\x0b' || c = '\x0c'

/-- Model of `str.isspace()`: nonempty and all characters whitespace. -/
def pyIsSpace (s : String) : Bool :=
  !s.toList.isEmpty && s.toList.all pySpace

/-- List-level substring occurrence helper: does `pat` start `s`? -/
def isPrefixL : List Char → List Char → Bool
  | [], _ => true
  | _ :: _, [] => false
  | p :: ps, c :: cs => p = c && isPrefixL ps cs

/-- List-level substring occurrence (Python's `in` on strings). -/
def containsL (s pat : List Char) : Bool :=
  match s with
  | [] => pat.isEmpty
  | _ :: rest => isPrefixL pat s || containsL rest pat

/-- Python `pat in s` on strings. -/
def containsStr (s pat : String) : Bool :=
  containsL s.toList pat.toList

/-- One step of Python `str.replace` at the list level, with fuel.
Replaces non-overlapping occurrences left to right. -/
def pyReplaceL (fuel : Nat) (s old new : List Char) : List Char :=
  match fuel with
  | 0 => s
  | fuel + 1 =>
    match s with
    | [] => []
    | c :: rest =>
      if old ≠ [] && isPrefixL old s then
        new ++ pyReplaceL fuel (s.drop old.length) old new
      else
        c :: pyReplaceL fuel rest old new

/-- Python `s.replace(old, new)` for nonempty `old` (every call site in the
module guards `old` by `is_word`, so `old` is nonempty there). -/
def pyReplace (s old new : String) : String :=
  ⟨pyReplaceL s.toList.length s.toList old.toList new.toList⟩

/-- Model of `check_parentheses`: stack walk over the characters, pushing `(` and
popping on `)`; balanced iff no underflow and an empty stack at the end. -/
def checkParenthesesL : List Char → List Char → Bool
  | [], stack => stack.isEmpty
  | c :: rest, stack =>
    if c = '(' then checkParenthesesL rest ('(' :: stack)
    else if c = ')' then
      match stack with
      | [] => false
      | top :: stack' => if top = '(' then checkParenthesesL rest stack' else false
    else checkParenthesesL rest stack

/-- Model of `check_parentheses(formula_string)`. -/
def checkParentheses (s : String) : Bool :=
  checkParenthesesL s.toList []

/-- The literal characters of `is_well_formed`'s allow-list character class
`[-+*/()0-9.xyz,sqrtlogsincostanfloorceilfactorialabsmodPIpow\s]`. -/
def baseAllowedChar (c : Char) : Bool :=
  pySpace c || c.isDigit ||
  ['-', '+', '*', '/', '(', ')', '.', ',', 'x', 'y', 'z',
   's', 'q', 'r', 't', 'l', 'o', 'g', 'i', 'n', 'c', 'a', 'f', 'e',
   'b', 'm', 'd', 'P', 'I', 'p', 'w'].contains c

/-- Allow-list extended with the characters of the declared unknown names
(the source splices `''.join(unknowns)` into the character class). -/
def allowedChar (unknowns : List String) (c : Char) : Bool :=
  baseAllowedChar c || unknowns.any (fun k => k.toList.contains c)

/-- Model of `is_well_formed(formula, unknowns)`: raises (modelled as `.error` with the
exception text) on mismatched parentheses — checked first — and then on an
empty / whitespace-only formula; otherwise returns whether the whole formula
matches the anchored allow-list pattern `^\s*[class]+\s*$`, which (since `\s`
is inside the class) holds iff the formula is nonempty and every character is
in the class. -/
def isWellFormed (formula : String) (unknowns : List String) : Except String Bool :=
  if !checkParentheses formula then .error "Parentheses are not matched"
  else if pyIsSpace formula || formula = "" then .error "Formula is empty"
  else .ok (!formula.toList.isEmpty && formula.toList.all (allowedChar unknowns))

/-- Model of `is_word(word)`: regex `^[a-zA-Z]+$`. -/
def isWord (s : String) : Bool :=
  !s.toList.isEmpty && s.toList.all (fun c => c.isAlpha)

/-- Model of `is_number(value)`: `isinstance(value, (int, float))`. -/
def isNumber : PyObj → Bool
  | .int _ => true
  | .float _ => true
  | _ => false

/-- Digits of a natural number (Python `str` on a nonnegative int). -/
def natDigits (n : Nat) : String :=
  toString n

/-- Python `str` on an int. -/
def intStr (n : Int) : String :=
  toString n

/-- Decimal expansion of a rational whose denominator divides a power of ten,
written with at least one fractional digit (so `46 ↦ "46.0"`), matching
Python's `str`/`repr` of a float that is an exact short decimal.  For a
rational with no finite decimal expansion of length ≤ 40 the model yields a
placeholder text; no claim formats such a value. -/
def floatStr (q : Rat) : String :=
  let sign := if q < 0 then "-" else ""
  let n := q.num.natAbs
  let d := q.den
  match (List.range 41).find? (fun k => 10 ^ k % d = 0) with
  | some k =>
    let k := max k 1
    let scaled := n * (10 ^ k / d)
    let digits := natDigits scaled
    let digits := String.mk (List.replicate (k + 1 - digits.length) '0') ++ digits
    let cut := digits.length - k
    sign ++ String.mk (digits.toList.take cut) ++ "." ++ String.mk (digits.toList.drop cut)
  | none => sign ++ natDigits n ++ "/" ++ natDigits d ++ " (model float repr)"

/-- Python `str(value)` for the objects of the model. -/
def pyStr : PyObj → String
  | .int n => intStr n
  | .float q => floatStr q
  | .none => "None"
  | .str s => s

/-- Python `str(value)` for evaluator results. -/
def valStr : Val → String
  | .i n => intStr n
  | .f q => floatStr q

/-- Tokens of the Python expression sub-grammar reachable through the
module's allowed characters. -/
inductive Tok where
  | num (v : Val)
  | ident (s : String)
  | lparen
  | rparen
  | comma
  | dot
  | plus
  | minus
  | star
  | slash
  | dstar
deriving DecidableEq, Repr

/-- Value of a decimal digit character. -/
def digitVal (c : Char) : Nat :=
  c.toNat - '0'.toNat

/-- Natural number denoted by a list of decimal digit characters. -/
def digitsToNat (ds : List Char) : Nat :=
  ds.foldl (fun n c => n * 10 + digitVal c) 0

/-- Identifier characters after the first (`[A-Za-z0-9_]`). -/
def identChar (c : Char) : Bool :=
  c.isAlpha || c.isDigit || c = '_'

/-- Assemble a numeric token from integer digits, fractional digits and a
base-10 exponent; a token is a float iff a `.` or an exponent was present. -/
def mkNumTok (intDs fracDs : List Char) (isFloat : Bool) (exp10 : Int) : Tok :=
  let mant : Nat := digitsToNat (intDs ++ fracDs)
  let e : Int := exp10 - fracDs.length
  if isFloat then
    .num (.f (ratMul (intToRat (mant : Int)) (ratZpow (intToRat 10) e)))
  else
    .num (.i (mant : Int))

/-- Lex the optional exponent part (`e`/`E`, optional sign, digits) directly
following a numeric literal.  Mirrors CPython's tokenizer: a dangling
exponent marker is a syntax error. -/
def lexExponent (s : List Char) : Except String (Option Int × List Char) :=
  match s with
  | c :: rest =>
    if c = 'e' || c = 'E' then
      let (sgn, rest') :=
        match rest with
        | '+' :: r => ((1 : Int), r)
        | '-' :: r => ((-1 : Int), r)
        | r => ((1 : Int), r)
      let ds := rest'.takeWhile (·.isDigit)
      if ds.isEmpty then .error "invalid decimal literal"
      else .ok (some (sgn * (digitsToNat ds : Int)), rest'.drop ds.length)
    else .ok (none, s)
  | [] => .ok (none, s)

/-- Lex one numeric literal starting at the head of `s` (which begins with a
digit, or with `.` followed by a digit).  Python disallows a multi-digit
integer literal with a leading zero unless it is all zeros. -/
def lexNumber (s : List Char) : Except String (Tok × List Char) :=
  let intDs := s.takeWhile (·.isDigit)
  let s1 := s.drop intDs.length
  match s1 with
  | '.' :: s2 =>
    let fracDs := s2.takeWhile (·.isDigit)
    let s3 := s2.drop fracDs.length
    match lexExponent s3 with
    | .error e => .error e
    | .ok (exp?, s4) => .ok (mkNumTok intDs fracDs true (exp?.getD 0), s4)
  | _ =>
    match lexExponent s1 with
    | .error e => .error e
    | .ok (some e, s2) => .ok (mkNumTok intDs [] true e, s2)
    | .ok (none, s2) =>
      if intDs.length > 1 && intDs.headD '0' = '0' && intDs.any (· ≠ '0') then
        .error "invalid decimal literal"
      else .ok (mkNumTok intDs [] false 0, s2)

/-- Tokenizer with fuel (each step consumes at least one character). -/
def lexToks (fuel : Nat) (s : List Char) : Except String (List Tok) :=
  match fuel with
  | 0 => .error "lexer fuel exhausted (model)"
  | fuel + 1 =>
    match s with
    | [] => .ok []
    | c :: rest =>
      if pySpace c then lexToks fuel rest
      else if c.isDigit || (c = '.' && (rest.headD ' ').isDigit) then
        match lexNumber s with
        | .error e => .error e
        | .ok (t, s') =>
          match lexToks fuel s' with
          | .error e => .error e
          | .ok ts => .ok (t :: ts)
      else if c.isAlpha || c = '_' then
        let ds := rest.takeWhile identChar
        match lexToks fuel (rest.drop ds.length) with
        | .error e => .error e
        | .ok ts => .ok (.ident (String.mk (c :: ds)) :: ts)
      else if c = '*' then
        match rest with
        | '*' :: rest' =>
          match lexToks fuel rest' with
          | .error e => .error e
          | .ok ts => .ok (.dstar :: ts)
        | _ =>
          match lexToks fuel rest with
          | .error e => .error e
          | .ok ts => .ok (.star :: ts)
      else
        let tok? : Option Tok :=
          if c = '(' then some .lparen
          else if c = ')' then some .rparen
          else if c = ',' then some .comma
          else if c = '.' then some .dot
          else if c = '+' then some .plus
          else if c = '-' then some .minus
          else if c = '/' then some .slash
          else Option.none
        match tok? with
        | some t =>
          match lexToks fuel rest with
          | .error e => .error e
          | .ok ts => .ok (t :: ts)
        | Option.none => .error ("invalid character " ++ String.mk [c])

/-- Binary operators of `SAFE_OPERATORS` (`ast.Add/Sub/Mult/Div/Pow`). -/
inductive BOp where
  | add
  | sub
  | mul
  | div
  | pow
deriving DecidableEq, Repr

/-- Unary operators of `SAFE_OPERATORS` (`ast.USub/UAdd`). -/
inductive UOp where
  | neg
  | pos
deriving DecidableEq, Repr

/-- The closed AST node type the evaluator walks: the shapes `_eval_node`
distinguishes (`Constant`/`Num`, `BinOp`, `UnaryOp`, `Call`, `Attribute`,
`Name`), plus `Tuple` as the representative unsupported node shape reachable
through the allowed characters (bare or parenthesized comma lists). -/
inductive Expr where
  | const (v : Val)
  | binop (op : BOp) (l r : Expr)
  | unop (op : UOp) (e : Expr)
  | call (fn : Expr) (args : List Expr)
  | attr (base : Expr) (nm : String)
  | name (id : String)
  | tuple (elts : List Expr)

mutual

/-- Model of `arith := term (('+' | '-') term)*` (lowest precedence level). -/
def parseArith (fuel : Nat) (toks : List Tok) : Except String (Expr × List Tok) :=
  match fuel with
  | 0 => .error "parser fuel exhausted (model)"
  | fuel + 1 =>
    match parseTerm fuel toks with
    | .error e => .error e
    | .ok (t, rest) => parseArithLoop fuel t rest

/-- Left-associative chain of `+`/`-`. -/
def parseArithLoop (fuel : Nat) (acc : Expr) (toks : List Tok) : Except String (Expr × List Tok) :=
  match fuel with
  | 0 => .error "parser fuel exhausted (model)"
  | fuel + 1 =>
    match toks with
    | .plus :: rest =>
      match parseTerm fuel rest with
      | .error e => .error e
      | .ok (t, rest') => parseArithLoop fuel (.binop .add acc t) rest'
    | .minus :: rest =>
      match parseTerm fuel rest with
      | .error e => .error e
      | .ok (t, rest') => parseArithLoop fuel (.binop .sub acc t) rest'
    | _ => .ok (acc, toks)

/-- Model of `term := unary (('*' | '/') unary)*`. -/
def parseTerm (fuel : Nat) (toks : List Tok) : Except String (Expr × List Tok) :=
  match fuel with
  | 0 => .error "parser fuel exhausted (model)"
  | fuel + 1 =>
    match parseUnary fuel toks with
    | .error e => .error e
    | .ok (u, rest) => parseTermLoop fuel u rest

/-- Left-associative chain of `*`/`/`. -/
def parseTermLoop (fuel : Nat) (acc : Expr) (toks : List Tok) : Except String (Expr × List Tok) :=
  match fuel with
  | 0 => .error "parser fuel exhausted (model)"
  | fuel + 1 =>
    match toks with
    | .star :: rest =>
      match parseUnary fuel rest with
      | .error e => .error e
      | .ok (u, rest') => parseTermLoop fuel (.binop .mul acc u) rest'
    | .slash :: rest =>
      match parseUnary fuel rest with
      | .error e => .error e
      | .ok (u, rest') => parseTermLoop fuel (.binop .div acc u) rest'
    | _ => .ok (acc, toks)

/-- Model of `unary := ('+' | '-') unary | power` (Python's `u_expr`). -/
def parseUnary (fuel : Nat) (toks : List Tok) : Except String (Expr × List Tok) :=
  match fuel with
  | 0 => .error "parser fuel exhausted (model)"
  | fuel + 1 =>
    match toks with
    | .plus :: rest =>
      match parseUnary fuel rest with
      | .error e => .error e
      | .ok (u, rest') => .ok (.unop .pos u, rest')
    | .minus :: rest =>
      match parseUnary fuel rest with
      | .error e => .error e
      | .ok (u, rest') => .ok (.unop .neg u, rest')
    | _ => parsePower fuel toks

/-- Model of `power := primary ['**' unary]` (right-associative, exponent may carry
unary signs, and `-x**y` parses as `-(x**y)` as in Python). -/
def parsePower (fuel : Nat) (toks : List Tok) : Except String (Expr × List Tok) :=
  match fuel with
  | 0 => .error "parser fuel exhausted (model)"
  | fuel + 1 =>
    match parsePrimary fuel toks with
    | .error e => .error e
    | .ok (b, rest) =>
      match rest with
      | .dstar :: rest' =>
        match parseUnary fuel rest' with
        | .error e => .error e
        | .ok (e, rest'') => .ok (.binop .pow b e, rest'')
      | _ => .ok (b, rest)

/-- Model of `primary := atom trailer*`. -/
def parsePrimary (fuel : Nat) (toks : List Tok) : Except String (Expr × List Tok) :=
  match fuel with
  | 0 => .error "parser fuel exhausted (model)"
  | fuel + 1 =>
    match parseAtom fuel toks with
    | .error e => .error e
    | .ok (a, rest) => parseTrailers fuel a rest

/-- Trailers: attribute access `.name` and call `(args)`. -/
def parseTrailers (fuel : Nat) (acc : Expr) (toks : List Tok) : Except String (Expr × List Tok) :=
  match fuel with
  | 0 => .error "parser fuel exhausted (model)"
  | fuel + 1 =>
    match toks with
    | .dot :: .ident s :: rest => parseTrailers fuel (.attr acc s) rest
    | .dot :: _ => .error "invalid syntax"
    | .lparen :: .rparen :: rest => parseTrailers fuel (.call acc []) rest
    | .lparen :: rest =>
      match parseArith fuel rest with
      | .error e => .error e
      | .ok (arg, rest') =>
        match parseArgsLoop fuel [arg] rest' with
        | .error e => .error e
        | .ok (args, rest'') => parseTrailers fuel (.call acc args) rest''
    | _ => .ok (acc, toks)

/-- Remaining call arguments after the first: `(',' arith)* [','] ')'`. -/
def parseArgsLoop (fuel : Nat) (acc : List Expr) (toks : List Tok) : Except String (List Expr × List Tok) :=
  match fuel with
  | 0 => .error "parser fuel exhausted (model)"
  | fuel + 1 =>
    match toks with
    | .rparen :: rest => .ok (acc.reverse, rest)
    | .comma :: .rparen :: rest => .ok (acc.reverse, rest)
    | .comma :: rest =>
      match parseArith fuel rest with
      | .error e => .error e
      | .ok (arg, rest') => parseArgsLoop fuel (arg :: acc) rest'
    | _ => .error "invalid syntax"

/-- Model of `atom := NUMBER | NAME | '(' testlist ')'`; a parenthesized comma list
(or `()`) is a `Tuple` node, a single parenthesized expression is itself. -/
def parseAtom (fuel : Nat) (toks : List Tok) : Except String (Expr × List Tok) :=
  match fuel with
  | 0 => .error "parser fuel exhausted (model)"
  | fuel + 1 =>
    match toks with
    | .num v :: rest => .ok (.const v, rest)
    | .ident s :: rest => .ok (.name s, rest)
    | .lparen :: .rparen :: rest => .ok (.tuple [], rest)
    | .lparen :: rest =>
      match parseArith fuel rest with
      | .error e => .error e
      | .ok (e, rest') => parseParenRest fuel e [e] rest'
    | _ => .error "invalid syntax"

/-- Finish a parenthesized group: `')'` closes a plain parenthesization of
`first` when no comma was seen, otherwise a `Tuple`. -/
def parseParenRest (fuel : Nat) (first : Expr) (acc : List Expr) (toks : List Tok) : Except String (Expr × List Tok) :=
  match fuel with
  | 0 => .error "parser fuel exhausted (model)"
  | fuel + 1 =>
    match toks with
    | .rparen :: rest =>
      if acc.length = 1 then .ok (first, rest) else .ok (.tuple acc.reverse, rest)
    | .comma :: .rparen :: rest => .ok (.tuple acc.reverse, rest)
    | .comma :: rest =>
      match parseArith fuel rest with
      | .error e => .error e
      | .ok (e, rest') => parseParenRest fuel first (e :: acc) rest'
    | _ => .error "invalid syntax"

end

/-- Model of `ast.parse(expression, mode='eval')` for the reachable sub-grammar:
tokenize, parse one expression, and require the input to be consumed. -/
def parseExpr (s : String) : Except String Expr :=
  match lexToks (s.toList.length + 1) s.toList with
  | .error e => .error e
  | .ok toks =>
    match parseArith (8 * toks.length + 8) toks with
    | .error e => .error e
    | .ok (e, []) => .ok e
    | .ok (_, _ :: _) => .error "invalid syntax"

/-- Python exceptions raised by the module: `ValueError`, `NameError`,
`ZeroDivisionError`, and `TypeError` (the latter only escapes the inner
evaluation, where `evaluate` converts it to a `ValueError`). -/
inductive PyErr where
  | valueError (msg : String)
  | nameError (msg : String)
  | zeroDivisionError (msg : String)
  | typeError (msg : String)
deriving DecidableEq, Repr

/-- Truncation toward zero, as C `fmod`'s quotient uses (`-⌊-q⌋ = ⌈q⌉` on
the negative side). -/
def truncRat (q : Rat) : Int :=
  if 0 ≤ q then q.floor else -(ratNeg q).floor

/-- Model of `math.fmod(x, y)` for `y ≠ 0`: C `fmod`, `x - trunc(x / y) * y`, exact on
rationals whenever the inputs are exact. -/
def fmodRat (x y : Rat) : Rat :=
  ratSub x (ratMul (intToRat (truncRat (ratDiv x y))) y)

/-- Exact square root on rationals where one exists; on other inputs a
placeholder (`Nat.sqrt`-based) value standing in for the irrational float.
No claim depends on the value in the inexact case. -/
def ratSqrt (q : Rat) : Rat :=
  let rn := Nat.sqrt q.num.natAbs
  let rd := Nat.sqrt q.den
  mkRat (rn : Int) rd

/-- Placeholder finite value standing in for a transcendental float result
(`math.log`, `math.sin`, `math.cos`, `math.tan`, non-integral `math.pow`).
Such values are not rational; no claim depends on them. -/
def transcendentalModel (q : Rat) : Rat :=
  q

/-- Model of `operator.add`: int preserved only when both operands are ints. -/
def addVal : Val → Val → Val
  | .i a, .i b => .i (a + b)
  | a, b => .f (ratAdd a.toRat b.toRat)

/-- Model of `operator.sub`. -/
def subVal : Val → Val → Val
  | .i a, .i b => .i (a - b)
  | a, b => .f (ratSub a.toRat b.toRat)

/-- Model of `operator.mul`. -/
def mulVal : Val → Val → Val
  | .i a, .i b => .i (a * b)
  | a, b => .f (ratMul a.toRat b.toRat)

/-- Model of `operator.truediv`: raises `ZeroDivisionError` on a zero divisor (for
ints and floats alike in Python 3), otherwise float division. -/
def divVal (a b : Val) : Except PyErr Val :=
  if b.toRat = 0 then .error (.zeroDivisionError "division by zero")
  else .ok (.f (ratDiv a.toRat b.toRat))

/-- Model of `operator.pow`: `int ** nonnegative int` stays int; a negative integer
exponent gives a float (raising `ZeroDivisionError` on base 0); an integral
float exponent is computed exactly; a non-integral exponent yields a
placeholder (negative base would be complex in Python — modelled as a
`ValueError`, a path no claim reaches). -/
def powVal (a b : Val) : Except PyErr Val :=
  match a, b with
  | .i x, .i y =>
    if 0 ≤ y then .ok (.i (intPowNat x y.toNat))
    else if x = 0 then .error (.zeroDivisionError "0.0 cannot be raised to a negative power")
    else .ok (.f (ratZpow (intToRat x) y))
  | a, b =>
    let x := a.toRat
    let y := b.toRat
    if y.den = 1 then
      if x = 0 ∧ y.num < 0 then .error (.zeroDivisionError "0.0 cannot be raised to a negative power")
      else .ok (.f (ratZpow x y.num))
    else if x < 0 then .error (.valueError "complex result (model)")
    else .ok (.f (transcendentalModel x))

/-- Model of `operator.neg` / `operator.pos`. -/
def applyUOp : UOp → Val → Val
  | .neg, .i n => .i (-n)
  | .neg, .f q => .f (ratNeg q)
  | .pos, v => v

/-- The names of `SAFE_FUNCTIONS`. -/
def safeFunctionNames : List String :=
  ["math.sqrt", "math.log", "math.sin", "math.cos", "math.tan", "math.fmod",
   "math.pow", "math.factorial", "math.fabs", "math.floor", "math.ceil"]

/-- Apply an entry of `SAFE_FUNCTIONS` to its evaluated arguments.  Wrong
arity raises `TypeError` (as calling the Python function would).  Domain
violations raise `ValueError` with CPython's messages. -/
def applyFunc (fn : String) (args : List Val) : Except PyErr Val :=
  match fn, args with
  | "math.sqrt", [v] =>
    if v.toRat < 0 then .error (.valueError "math domain error")
    else .ok (.f (ratSqrt v.toRat))
  | "math.log", [v] =>
    if v.toRat ≤ 0 then .error (.valueError "math domain error")
    else .ok (.f (transcendentalModel v.toRat))
  | "math.sin", [v] => .ok (.f (transcendentalModel v.toRat))
  | "math.cos", [v] => .ok (.f (transcendentalModel v.toRat))
  | "math.tan", [v] => .ok (.f (transcendentalModel v.toRat))
  | "math.fmod", [x, y] =>
    if y.toRat = 0 then .error (.valueError "math domain error")
    else .ok (.f (fmodRat x.toRat y.toRat))
  | "math.pow", [x, y] =>
    match powVal (.f x.toRat) (.f y.toRat) with
    | .error (.zeroDivisionError _) => .error (.valueError "math domain error")
    | r => r
  | "math.factorial", [v] =>
    match v with
    | .i n =>
      if n < 0 then .error (.valueError "factorial() not defined for negative values")
      else .ok (.i (Nat.factorial n.toNat))
    | .f q =>
      if q.den = 1 then
        if q.num < 0 then .error (.valueError "factorial() not defined for negative values")
        else .ok (.i (Nat.factorial q.num.toNat))
      else .error (.valueError "factorial() only accepts integral values")
  | "math.fabs", [v] => .ok (.f (ratAbs v.toRat))
  | "math.floor", [v] => .ok (.i (Val.toRat v).floor)
  | "math.ceil", [v] => .ok (.i (Val.toRat v).ceil)
  | _, _ => .error (.typeError ("wrong number of arguments to " ++ fn))

/-- Model of `_get_attr_name_base`: the dotted base of an attribute chain. -/
def getAttrNameBase : Expr → Except PyErr String
  | .name id => .ok id
  | .attr b a =>
    match getAttrNameBase b with
    | .error e => .error e
    | .ok s => .ok (s ++ "." ++ a)
  | _ => .error (.valueError "Cannot determine attribute base")

/-- Model of `_get_func_name`: the full dotted name of a `Call`'s function. -/
def getFuncName : Expr → Except PyErr String
  | .attr b a =>
    match getAttrNameBase b with
    | .error e => .error e
    | .ok s => .ok (s ++ "." ++ a)
  | .name id => .ok id
  | _ => .error (.valueError "Cannot determine function name")

/-- Model of `SAFE_CONSTANTS`' entry `math.pi`: the exact rational value of the IEEE
double closest to π (the value of Python's `math.pi`). -/
def piFloat : Rat :=
  mkRat 884279719003555 281474976710656

mutual

/-- Model of `SafeEvaluator._eval_node`: recursive evaluation of the closed AST. -/
def evalNode : Expr → Except PyErr Val
  | .const v => .ok v
  | .binop op l r =>
    match evalNode l with
    | .error e => .error e
    | .ok lv =>
      match evalNode r with
      | .error e => .error e
      | .ok rv =>
        match op with
        | .add => .ok (addVal lv rv)
        | .sub => .ok (subVal lv rv)
        | .mul => .ok (mulVal lv rv)
        | .div => divVal lv rv
        | .pow => powVal lv rv
  | .unop op e =>
    match evalNode e with
    | .error e => .error e
    | .ok v => .ok (applyUOp op v)
  | .call fn args =>
    match getFuncName fn with
    | .error e => .error e
    | .ok fname =>
      if safeFunctionNames.contains fname then
        match evalArgs args with
        | .error e => .error e
        | .ok vs => applyFunc fname vs
      else .error (.nameError ("Unsupported function: " ++ fname))
  | .attr b a =>
    match getAttrNameBase b with
    | .error e => .error e
    | .ok base =>
      let attrName := base ++ "." ++ a
      if attrName = "math.pi" then .ok (.f piFloat)
      else .error (.nameError ("Unsupported attribute: " ++ attrName))
  | .name id => .error (.nameError ("name '" ++ id ++ "' is not defined"))
  | .tuple _ => .error (.valueError "Unsupported expression type: Tuple")

/-- Evaluate call arguments left to right. -/
def evalArgs : List Expr → Except PyErr (List Val)
  | [] => .ok []
  | e :: rest =>
    match evalNode e with
    | .error err => .error err
    | .ok v =>
      match evalArgs rest with
      | .error err => .error err
      | .ok vs => .ok (v :: vs)

end

/-- Model of `SafeEvaluator.evaluate` / `safe_eval`: parse then evaluate; a parse
failure or a `TypeError` becomes `ValueError("Invalid expression: ...")`,
a `ZeroDivisionError` is re-raised with the expression in its message, and
`ValueError`/`NameError` from evaluation propagate unchanged. -/
def safeEval (expression : String) : Except PyErr Val :=
  match parseExpr expression with
  | .error e => .error (.valueError ("Invalid expression: " ++ expression ++ " - " ++ e))
  | .ok tree =>
    match evalNode tree with
    | .error (.zeroDivisionError _) =>
      .error (.zeroDivisionError ("Can't divide by 0 in " ++ expression))
    | .error (.typeError m) =>
      .error (.valueError ("Invalid expression: " ++ expression ++ " - " ++ m))
    | r => r

/-- The text `math.sqrt(` as characters. -/
def sqrtCallChars : List Char :=
  "math.sqrt(".toList

/-- Take the argument substring matched by `([^)]+)\)`: at least one
character up to (excluding) the first `)`, also returning the text after
that `)`.  `none` when there is no such closing `)` or the argument would be
empty. -/
def takeSqrtArg (s : List Char) : Option (List Char × List Char) :=
  let arg := s.takeWhile (· ≠ ')')
  let rest := s.drop arg.length
  match rest with
  | ')' :: rest' => if arg.isEmpty then Option.none else some (arg, rest')
  | _ => Option.none

/-- All matches of `math\.sqrt\(([^)]+)\)` in order, non-overlapping,
scanning left to right as `re.finditer`/`re.findall` do: on a failed
completion at a position the scan resumes one character later. -/
def sqrtArgScan (fuel : Nat) (s : List Char) : List (List Char) :=
  match fuel with
  | 0 => []
  | fuel + 1 =>
    match s with
    | [] => []
    | _ :: rest =>
      if isPrefixL sqrtCallChars s then
        match takeSqrtArg (s.drop sqrtCallChars.length) with
        | some (arg, rest') => arg :: sqrtArgScan fuel rest'
        | Option.none => sqrtArgScan fuel rest
      else sqrtArgScan fuel rest

/-- Arguments of every `math.sqrt(...)` occurrence of a string, in match
order. -/
def sqrtArgsOf (s : String) : List String :=
  (sqrtArgScan s.toList.length s.toList).map String.mk

/-- Model of `get_sqrt_value(formula_string)`: first match of `math\.sqrt\((.+?)\)`,
or `""`.  (On the call's inputs the lazy `(.+?)\)` and the precheck's
`([^)]+)\)` extract the same text: the shortest nonempty prefix ending at
the first `)`; the one divergence — `.` not matching a newline — is
unreachable through the validator, which admits newlines only as `\s`.) -/
def getSqrtValue (formulaString : String) : String :=
  match sqrtArgsOf formulaString with
  | [] => ""
  | a :: _ => a

/-- Model of `_find_negative_sqrt(formula)`: evaluate each extracted sqrt argument,
swallowing evaluation failures, and return the first negative value paired
with the whole formula. -/
def findNegativeSqrtFrom : List String → String → Option (Val × String)
  | [], _ => Option.none
  | a :: rest, formula =>
    match safeEval a with
    | .ok v => if v.toRat < 0 then some (v, formula) else findNegativeSqrtFrom rest formula
    | .error _ => findNegativeSqrtFrom rest formula

/-- Model of `_find_negative_sqrt`. -/
def findNegativeSqrt (formula : String) : Option (Val × String) :=
  findNegativeSqrtFrom (sqrtArgsOf formula) formula

/-- The fixed, ordered keyword-qualification rewrites of `compute_formula`
(lines 399–410 of the source), applied with `str.replace` semantics. -/
def rewriteKeywords (s : String) : String :=
  let s := pyReplace s "PI" "math.pi"
  let s := pyReplace s "sqrt(" "math.sqrt("
  let s := pyReplace s "log(" "math.log("
  let s := pyReplace s "sin(" "math.sin("
  let s := pyReplace s "cos(" "math.cos("
  let s := pyReplace s "tan(" "math.tan("
  let s := pyReplace s "mod(" "math.fmod("
  let s := pyReplace s "pow(" "math.pow("
  let s := pyReplace s "factorial(" "math.factorial("
  let s := pyReplace s "abs(" "math.fabs("
  let s := pyReplace s "floor(" "math.floor("
  let s := pyReplace s "ceil(" "math.ceil("
  s

/-- The variable-substitution loop of `compute_formula` (lines 413–424):
iterate the bindings in insertion order; a non-alphabetic key or a
non-numeric value raises `ValueError`; when the key occurs in the ORIGINAL
input text, every occurrence of it in the accumulated (keyword-rewritten)
formula is replaced by the parenthesized value literal.  The `else` branch
returning the string `'Undefined variable'` mirrors line 424. -/
def substituteVars (input : String) (bindings : List (String × PyObj)) (formula : String) :
    Except PyErr (Sum String String) :=
  match bindings with
  | [] => .ok (.inr formula)
  | (key, value) :: rest =>
    if !isWord key then
      .error (.valueError ("Unknown key '" ++ key ++ "' is not a valid variable name"))
    else if !isNumber value then
      .error (.valueError ("Value of '" ++ key ++ "' = " ++ pyStr value ++ " is not a number"))
    else if containsStr input key then
      if value ≠ PyObj.none then
        substituteVars input rest (pyReplace formula key ("(" ++ pyStr value ++ ")"))
      else .ok (.inl "Undefined variable")
    else substituteVars input rest formula

/-- Python `str.lower()` restricted to ASCII (all message text the module
builds is ASCII). -/
def pyLowerChar (c : Char) : Char :=
  if 'A' ≤ c && c ≤ 'Z' then Char.ofNat (c.toNat + 32) else c

/-- Python `str.lower()`. -/
def pyLower (s : String) : String :=
  ⟨s.toList.map pyLowerChar⟩

/-- The evaluation block of `compute_formula` (lines 434–453): run the safe
evaluator on the normalized formula; re-raise `ZeroDivisionError` with the
formula in the message; on a `ValueError` whose lowered text contains
`math domain error`, return a sqrt-error string when a sqrt argument is
extractable (re-evaluated when possible, raw text otherwise), else raise
`"Value Error occurred in ..."`; re-raise `NameError` unchanged. -/
def handleEvalResult (formula : String) : Except PyErr (Sum String Val) :=
  match safeEval formula with
  | .ok v => .ok (.inr v)
  | .error (.zeroDivisionError _) =>
    .error (.zeroDivisionError ("Can't divide by 0 in " ++ formula))
  | .error (.valueError m) =>
    if containsStr (pyLower m) "math domain error" then
      let sqrtValue := getSqrtValue formula
      if sqrtValue ≠ "" then
        match safeEval sqrtValue with
        | .ok computed =>
          .ok (.inl ("Can't sqrt with value (" ++ valStr computed ++ ") in " ++ formula))
        | .error _ =>
          .ok (.inl ("Can't sqrt with value (" ++ sqrtValue ++ ") in " ++ formula))
      else .error (.valueError ("Value Error occurred in " ++ formula ++ ": " ++ m))
    else .error (.valueError ("Value Error occurred in " ++ formula ++ ": " ++ m))
  | .error (.nameError m) => .error (.nameError m)
  | .error e => .error e

/-- The domain pre-check and evaluation stages of `compute_formula`
(lines 428–453), applied to the fully normalized formula. -/
def afterSubstitution (formula : String) : Except PyErr (Sum String Val) :=
  match findNegativeSqrt formula with
  | some (v, formulaAtPoint) =>
    .ok (.inl ("Can't sqrt with value (" ++ valStr v ++ ") in " ++ formulaAtPoint))
  | Option.none => handleEvalResult formula

/-- Model of `compute_formula(input_string, unknown_value)`.  The bindings are an
association list in insertion order (so the `isinstance(dict)` guard is
discharged by the type); validation errors raised by `is_well_formed` are
returned as strings, a `False` well-formedness result returns
`"Formula is not well formed"`, then the keyword rewrites, the variable
substitution loop, the negative-sqrt pre-check and the guarded evaluation
run in the source's order. -/
def computeFormula (inputString : String) (unknownValue : List (String × PyObj)) :
    Except PyErr (Sum String Val) :=
  match isWellFormed inputString (unknownValue.map (·.1)) with
  | .error msg => .ok (.inl msg)
  | .ok false => .ok (.inl "Formula is not well formed")
  | .ok true =>
    match substituteVars inputString unknownValue (rewriteKeywords inputString) with
    | .error e => .error e
    | .ok (.inl s) => .ok (.inl s)
    | .ok (.inr formula) => afterSubstitution formula

/-- Decidable equality for `Except`, so that concrete runs of the embedded
pipeline can be checked by `decide`. -/
instance exceptDecEq {e a : Type} [DecidableEq e] [DecidableEq a] : DecidableEq (Except e a) := fun x y =>
  match x, y with
  | .error u, .error v =>
    if h : u = v then .isTrue (congrArg Except.error h)
    else .isFalse (fun hh => h (Except.error.inj hh))
  | .error _, .ok _ => .isFalse Except.noConfusion
  | .ok _, .error _ => .isFalse Except.noConfusion
  | .ok u, .ok v =>
    if h : u = v then .isTrue (congrArg Except.ok h)
    else .isFalse (fun hh => h (Except.ok.inj hh))

/-! Bridge lemmas: each kernel-computable arithmetic helper coincides with
the corresponding Mathlib operation on `Rat`. -/

theorem intToRat_eq (n : Int) : intToRat n = (n : Rat) := Rat.mkRat_one n

theorem ratAdd_eq (a b : Rat) : ratAdd a b = a + b := (Rat.add_def' a b).symm

theorem ratSub_eq (a b : Rat) : ratSub a b = a - b := (Rat.sub_def' a b).symm

theorem ratMul_eq (a b : Rat) : ratMul a b = a * b := by
  rw [ratMul, Rat.mul_def, Rat.normalize_eq_mkRat]

theorem ratDiv_eq (a b : Rat) : ratDiv a b = a / b := (Rat.div_def' a b).symm

theorem ratNeg_eq (a : Rat) : ratNeg a = -a := (Rat.neg_def a).symm

theorem ratFloor_eq (q : Rat) : q.floor = ⌊q⌋ := by
  rw [Rat.floor_def', Rat.floor_def]

theorem truncRat_eq (q : Rat) : truncRat q = if 0 ≤ q then ⌊q⌋ else ⌈q⌉ := by
  rw [truncRat]
  split
  · rw [ratFloor_eq]
  · rw [ratNeg_eq, ratFloor_eq, Int.floor_neg, neg_neg]

theorem fmodRat_eq (x y : Rat) :
    fmodRat x y = x - ((if 0 ≤ x / y then ⌊x / y⌋ else ⌈x / y⌉ : Int) : Rat) * y := by
  rw [fmodRat, ratSub_eq, ratMul_eq, intToRat_eq, ratDiv_eq, truncRat_eq]

/-- C-`fmod` sign analysis: for a nonzero divisor the remainder is
nonnegative when the dividend is, and nonpositive when the dividend is —
the remainder's sign follows the dividend. -/
theorem fmodRat_sign (x y : Rat) (hy : y ≠ 0) :
    (0 ≤ x → 0 ≤ fmodRat x y) ∧ (x ≤ 0 → fmodRat x y ≤ 0) := by
  have hty : x / y * y = x := div_mul_cancel₀ x hy
  rw [fmodRat_eq]
  constructor
  · intro hx
    rcases hy.lt_or_lt with hy' | hy'
    · have ht : x / y ≤ 0 := div_nonpos_iff.mpr (Or.inl ⟨hx, hy'.le⟩)
      by_cases h0 : 0 ≤ x / y
      · have ht0 : x / y = 0 := le_antisymm ht h0
        rw [if_pos h0, ht0]
        simp [hx]
      · rw [if_neg h0]
        have h1 : x / y ≤ (⌈x / y⌉ : Rat) := Int.le_ceil _
        have h2 : (⌈x / y⌉ : Rat) * y ≤ x / y * y := mul_le_mul_of_nonpos_right h1 hy'.le
        rw [hty] at h2
        linarith
    · have h0 : 0 ≤ x / y := div_nonneg hx hy'.le
      rw [if_pos h0]
      have h1 : (⌊x / y⌋ : Rat) ≤ x / y := Int.floor_le _
      have h2 : (⌊x / y⌋ : Rat) * y ≤ x / y * y := mul_le_mul_of_nonneg_right h1 hy'.le
      rw [hty] at h2
      linarith
  · intro hx
    rcases hy.lt_or_lt with hy' | hy'
    · have h0 : 0 ≤ x / y := div_nonneg_of_nonpos hx hy'.le
      rw [if_pos h0]
      have h1 : (⌊x / y⌋ : Rat) ≤ x / y := Int.floor_le _
      have h2 : x / y * y ≤ (⌊x / y⌋ : Rat) * y := mul_le_mul_of_nonpos_right h1 hy'.le
      rw [hty] at h2
      linarith
    · have ht : x / y ≤ 0 := div_nonpos_iff.mpr (Or.inr ⟨hx, hy'.le⟩)
      by_cases h0 : 0 ≤ x / y
      · have ht0 : x / y = 0 := le_antisymm ht h0
        rw [if_pos h0, ht0]
        simp [hx]
      · rw [if_neg h0]
        have h1 : x / y ≤ (⌈x / y⌉ : Rat) := Int.le_ceil _
        have h2 : x / y * y ≤ (⌈x / y⌉ : Rat) * y := mul_le_mul_of_nonneg_right h1 hy'.le
        rw [hty] at h2
        linarith

/-- C1: `compute_formula` returns the spec's concrete values — `8` for
`"x + 1"` at `x = 7`, `14` for `"x * 2"` at `x = 7`, the float `1.0` for
`"mod(x, 2)"` at `x = 7` where the `fmod` model is the C-style remainder
whose sign follows the dividend, and `120` for `"factorial(x)"` at
`x = 5`. -/
theorem claim_C1 :
    computeFormula "x + 1" [("x", PyObj.int 7)] = .ok (.inr (.i 8)) ∧
    computeFormula "x * 2" [("x", PyObj.int 7)] = .ok (.inr (.i 14)) ∧
    computeFormula "mod(x, 2)" [("x", PyObj.int 7)] = .ok (.inr (.f 1)) ∧
    (∀ x y : Rat, y ≠ 0 → (0 ≤ x → 0 ≤ fmodRat x y) ∧ (x ≤ 0 → fmodRat x y ≤ 0)) ∧
    computeFormula "factorial(x)" [("x", PyObj.int 5)] = .ok (.inr (.i 120)) :=
  ⟨by decide, by decide, by decide, fmodRat_sign, by decide⟩

/-- Witness for C1's quantified conjunct, instantiated at `fmod(7, 2)` and
`fmod(-7, 2)`. -/
theorem claim_C1_witness : ((0 : Rat) ≤ fmodRat 7 2) ∧ (fmodRat (-7) 2 ≤ 0) :=
  ⟨(claim_C1.2.2.2.1 7 2 (by norm_num)).1 (by norm_num),
   (claim_C1.2.2.2.1 (-7) 2 (by norm_num)).2 (by norm_num)⟩

/-! Structural lemmas about the validator and the orchestrator's stages. -/

theorem isWellFormed_parens (f : String) (u : List String) (h : checkParentheses f = false) :
    isWellFormed f u = .error "Parentheses are not matched" := by
  rw [isWellFormed, h]
  rfl

theorem pySpace_ne_paren (c : Char) (h : pySpace c = true) : c ≠ '(' ∧ c ≠ ')' := by
  constructor <;> rintro rfl <;> revert h <;> decide

theorem checkParenthesesL_spaces (l : List Char) (h : ∀ c ∈ l, pySpace c = true) :
    checkParenthesesL l [] = true := by
  induction l with
  | nil => rfl
  | cons c rest ih =>
    have hc := h c (List.mem_cons_self c rest)
    simp only [checkParenthesesL, if_neg (pySpace_ne_paren c hc).1,
      if_neg (pySpace_ne_paren c hc).2]
    exact ih (fun d hd => h d (List.mem_cons_of_mem _ hd))

theorem isWellFormed_empty (f : String) (u : List String) (h : f = "" ∨ pyIsSpace f = true) :
    isWellFormed f u = .error "Formula is empty" := by
  rcases h with rfl | h
  · rfl
  · have hall : ∀ c ∈ f.toList, pySpace c = true := by
      have h' := h
      simp only [pyIsSpace, Bool.and_eq_true, List.all_eq_true] at h'
      exact h'.2
    have hcp : checkParentheses f = true := checkParenthesesL_spaces f.toList hall
    rw [isWellFormed, hcp, h]
    rfl

theorem isWellFormed_badchar (f : String) (u : List String)
    (h1 : checkParentheses f = true) (h2 : pyIsSpace f = false) (h3 : f ≠ "")
    (h4 : f.toList.all (allowedChar u) = false) :
    isWellFormed f u = .ok false := by
  rw [isWellFormed, h1, h2]
  simp [h3, h4]
  intro _
  simpa using List.all_eq_false.mp h4

theorem computeFormula_eval_stage (input : String) (bs : List (String × PyObj)) (nf : String)
    (hwf : isWellFormed input (bs.map (·.1)) = .ok true)
    (hsub : substituteVars input bs (rewriteKeywords input) = .ok (.inr nf)) :
    computeFormula input bs = afterSubstitution nf := by
  unfold computeFormula
  rw [hwf, hsub]

theorem afterSubstitution_eval (nf : String) (hpre : findNegativeSqrt nf = Option.none) :
    afterSubstitution nf = handleEvalResult nf := by
  rw [afterSubstitution, hpre]

/-- C2: an input with unbalanced parentheses makes `compute_formula` return
the string `"Parentheses are not matched"` (for any bindings, with no
emptiness side condition — the parenthesis check runs first), and an empty
or whitespace-only input makes it return the string `"Formula is empty"`;
both are returned values, not raised errors. -/
theorem claim_C2 :
    (∀ f bs, checkParentheses f = false →
      computeFormula f bs = .ok (.inl "Parentheses are not matched")) ∧
    (∀ f bs, f = "" ∨ pyIsSpace f = true →
      computeFormula f bs = .ok (.inl "Formula is empty")) := by
  constructor
  · intro f bs h
    unfold computeFormula
    rw [isWellFormed_parens f _ h]
  · intro f bs h
    unfold computeFormula
    rw [isWellFormed_empty f _ h]

/-- Witness for C2 at `"(x + 1"` (unbalanced) and `"   "` (whitespace). -/
theorem claim_C2_witness :
    computeFormula "(x + 1" [("x", PyObj.int 7)] = .ok (.inl "Parentheses are not matched") ∧
    computeFormula "   " [("x", PyObj.int 7)] = .ok (.inl "Formula is empty") :=
  ⟨claim_C2.1 "(x + 1" [("x", PyObj.int 7)] (by decide),
   claim_C2.2 "   " [("x", PyObj.int 7)] (Or.inr (by decide))⟩

/-- C3 (amended): the validation is character-class based, so the inputs
that return `"Formula is not well formed"` are exactly those containing a
character outside the allow-list; the claim's examples `"chips(x)"` and
`"Roubaix(x)"` are of that kind (`'h'`, `'u'`, `'R'` are not in the class).
An unrecognized function name spelled only with allowed characters instead
reaches evaluation and raises `UndefinedName` (see the counterexample). -/
theorem claim_C3 :
    (∀ f bs, checkParentheses f = true → pyIsSpace f = false → f ≠ "" →
      f.toList.all (allowedChar (bs.map (·.1))) = false →
      computeFormula f bs = .ok (.inl "Formula is not well formed")) ∧
    computeFormula "chips(x)" [("x", PyObj.int 7)] = .ok (.inl "Formula is not well formed") ∧
    computeFormula "Roubaix(x)" [("x", PyObj.int 7)] = .ok (.inl "Formula is not well formed") := by
  refine ⟨?_, by decide, by decide⟩
  intro f bs h1 h2 h3 h4
  unfold computeFormula
  rw [isWellFormed_badchar f _ h1 h2 h3 h4]

/-- Counterexample to C3 as stated: `"sqr(2)"` contains the unrecognized
function keyword `sqr` (a called name that is not a supported function),
yet `compute_formula` raises `NameError` instead of returning
`"Formula is not well formed"`. -/
theorem claim_C3_counterexample :
    computeFormula "sqr(2)" [] = .error (.nameError "Unsupported function: sqr") ∧
    computeFormula "sqr(2)" [] ≠ .ok (.inl "Formula is not well formed") :=
  ⟨by decide, by decide⟩

/-- Witness for C3's quantified part at `"h + 1"` (the character `'h'` is
outside the allow-list). -/
theorem claim_C3_witness :
    computeFormula "h + 1" [] = .ok (.inl "Formula is not well formed") :=
  claim_C3.1 "h + 1" [] (by decide) (by decide) (by decide) (by decide)

/-- C4 (amended): inside the evaluator a bare identifier node always fails
with `UndefinedName`, and whenever the pipeline reaches evaluation (the
formula validates, substitution succeeds, the negative-sqrt pre-check does
not fire) and the evaluator raises `UndefinedName`, `compute_formula`
re-raises it unchanged — as on `"x + y"` with only `x` bound.  Formulas
that fail validation (e.g. `"h + 1"`, whose name has a disallowed
character) return a string instead; see the counterexample. -/
theorem claim_C4 :
    (∀ id, evalNode (.name id) = .error (.nameError ("name '" ++ id ++ "' is not defined"))) ∧
    (∀ f bs nf m, isWellFormed f (bs.map (·.1)) = .ok true →
      substituteVars f bs (rewriteKeywords f) = .ok (.inr nf) →
      findNegativeSqrt nf = Option.none →
      safeEval nf = .error (.nameError m) →
      computeFormula f bs = .error (.nameError m)) ∧
    computeFormula "x + y" [("x", PyObj.int 7)] = .error (.nameError "name 'y' is not defined") := by
  refine ⟨fun id => rfl, ?_, by decide⟩
  intro f bs nf m hwf hsub hpre heval
  rw [computeFormula_eval_stage f bs nf hwf hsub, afterSubstitution_eval nf hpre]
  unfold handleEvalResult
  rw [heval]

/-- Counterexample to C4 as stated: `"h + 1"` (no bindings) references the
name `h`, which is absent from the bindings, yet `compute_formula` returns
the string `"Formula is not well formed"` rather than raising
`UndefinedName`, because `'h'` fails the character-class validation first. -/
theorem claim_C4_counterexample :
    computeFormula "h + 1" [("x", PyObj.int 7)] = .ok (.inl "Formula is not well formed") := by
  decide

/-- Witness for C4's quantified parts, instantiated at `"x + y"` with
`x = 7` (normalized formula `"(7) + y"`). -/
theorem claim_C4_witness :
    computeFormula "x + y" [("x", PyObj.int 7)] = .error (.nameError "name 'y' is not defined") :=
  claim_C4.2.1 "x + y" [("x", PyObj.int 7)] "(7) + y" "name 'y' is not defined"
    (by decide) (by decide) (by decide) (by decide)

/-- C5: evaluation of a division node (with evaluated operands) fails with
`DivisionByZero` exactly when the divisor is zero, and with a nonzero
divisor yields ordinary division into a float and never raises
`DivisionByZero`; at the orchestrator level a `DivisionByZero` reaching
evaluation is re-raised with the formula in the message, concretely on
`compute_formula("x/0", {x: 1})`. -/
theorem claim_C5 :
    (∀ a b lv rv, evalNode a = .ok lv → evalNode b = .ok rv →
      ((∃ m, evalNode (.binop .div a b) = .error (.zeroDivisionError m)) ↔ rv.toRat = 0) ∧
      (rv.toRat ≠ 0 → evalNode (.binop .div a b) = .ok (.f (lv.toRat / rv.toRat)))) ∧
    (∀ f bs nf m, isWellFormed f (bs.map (·.1)) = .ok true →
      substituteVars f bs (rewriteKeywords f) = .ok (.inr nf) →
      findNegativeSqrt nf = Option.none →
      safeEval nf = .error (.zeroDivisionError m) →
      computeFormula f bs = .error (.zeroDivisionError ("Can't divide by 0 in " ++ nf))) ∧
    computeFormula "x/0" [("x", PyObj.int 1)] =
      .error (.zeroDivisionError "Can't divide by 0 in (1)/0") := by
  refine ⟨?_, ?_, by decide⟩
  · intro a b lv rv ha hb
    have hdef : evalNode (.binop .div a b) = divVal lv rv := by
      rw [evalNode, ha, hb]
    constructor
    · constructor
      · rintro ⟨m, hm⟩
        rw [hdef, divVal] at hm
        by_cases h0 : rv.toRat = 0
        · exact h0
        · rw [if_neg h0] at hm
          cases hm
      · intro h0
        exact ⟨"division by zero", by rw [hdef, divVal, if_pos h0]⟩
    · intro h0
      rw [hdef, divVal, if_neg h0, ratDiv_eq]
  · intro f bs nf m hwf hsub hpre heval
    rw [computeFormula_eval_stage f bs nf hwf hsub, afterSubstitution_eval nf hpre]
    unfold handleEvalResult
    rw [heval]

/-- Witness for C5's quantified parts, instantiated at the division node
`(1)/(0)` and at the formula `"x/0"` with `x = 1`. -/
theorem claim_C5_witness :
    evalNode (.binop .div (.const (.i 1)) (.const (.i 2))) =
      .ok (.f ((Val.i 1).toRat / (Val.i 2).toRat)) :=
  (claim_C5.1 (.const (.i 1)) (.const (.i 2)) (.i 1) (.i 2) rfl rfl).2 (by decide)

/-- C6 (amended): for a single binding, the *occurrence test* consults the
original input text, but the *replacement* is applied to the
keyword-rewritten text — so text introduced by the `math.` qualification
rewrites IS itself subject to variable substitution (the counterexample
shows the `a` of an introduced `math.` being replaced). -/
theorem claim_C6 :
    (∀ input key value, isWord key = true → isNumber value = true → value ≠ PyObj.none →
      substituteVars input [(key, value)] (rewriteKeywords input) =
        .ok (.inr (if containsStr input key = true
          then pyReplace (rewriteKeywords input) key ("(" ++ pyStr value ++ ")")
          else rewriteKeywords input))) ∧
    substituteVars "tan(a)" [("a", PyObj.int 0)] (rewriteKeywords "tan(a)") =
      .ok (.inr "m(0)th.t(0)n((0))") := by
  refine ⟨?_, by decide⟩
  intro input key value hW hN hne
  simp only [substituteVars, hW, hN, Bool.not_true, Bool.false_eq_true, if_false]
  by_cases hc : containsStr input key = true
  · rw [if_pos hc, if_pos hne, if_pos hc]
  · rw [if_neg hc, if_neg hc]

/-- Counterexample to C6 as stated: normalizing `"tan(a)"` with `a = 0`
first rewrites to `"math.tan(a)"` and then replaces every `"a"` in that
REWRITTEN text, producing `"m(0)th.t(0)n((0))"` — the `a` of the introduced
`"math."` prefix is substituted (the claim predicts `"math.tan((0))"`,
which would still contain the introduced `"math."` text). -/
theorem claim_C6_counterexample :
    substituteVars "tan(a)" [("a", PyObj.int 0)] (rewriteKeywords "tan(a)") =
      .ok (.inr "m(0)th.t(0)n((0))") ∧
    rewriteKeywords "tan(a)" = "math.tan(a)" ∧
    containsStr "m(0)th.t(0)n((0))" "math." = false :=
  ⟨by decide, by decide, by decide⟩

/-- Witness for C6's quantified part at input `"x + 1"`, binding
`x = 7`. -/
theorem claim_C6_witness :
    substituteVars "x + 1" [("x", PyObj.int 7)] (rewriteKeywords "x + 1") =
      .ok (.inr (if containsStr "x + 1" "x" = true
        then pyReplace (rewriteKeywords "x + 1") "x" ("(" ++ pyStr (PyObj.int 7) ++ ")")
        else rewriteKeywords "x + 1")) :=
  claim_C6.1 "x + 1" "x" (PyObj.int 7) (by decide) (by decide) (by decide)

theorem substituteVars_bad (input : String) (bs : List (String × PyObj)) :
    ∀ formula, (∃ kv ∈ bs, isWord kv.1 = false ∨ isNumber kv.2 = false) →
      ∃ m, substituteVars input bs formula = .error (.valueError m) := by
  induction bs with
  | nil =>
    intro formula h
    obtain ⟨kv, hmem, _⟩ := h
    cases hmem
  | cons kv rest ih =>
    obtain ⟨k, v⟩ := kv
    intro formula h
    by_cases hw : isWord k = true
    · by_cases hn : isNumber v = true
      · have hrest : ∃ kv ∈ rest, isWord kv.1 = false ∨ isNumber kv.2 = false := by
          obtain ⟨kv', hmem, hbad⟩ := h
          rcases List.mem_cons.mp hmem with rfl | hmem'
          · exfalso
            rcases hbad with h' | h' <;> simp_all
          · exact ⟨kv', hmem', hbad⟩
        have hne : v ≠ PyObj.none := by
          cases v <;> simp_all [isNumber]
        simp only [substituteVars, hw, hn, Bool.not_true, Bool.false_eq_true, if_false]
        by_cases hc : containsStr input k = true
        · rw [if_pos hc, if_pos hne]
          exact ih _ hrest
        · rw [if_neg hc]
          exact ih _ hrest
      · refine ⟨"Value of '" ++ k ++ "' = " ++ pyStr v ++ " is not a number", ?_⟩
        have hn' : isNumber v = false := by
          cases hnv : isNumber v
          · rfl
          · exact absurd hnv hn
        simp only [substituteVars, hw, hn', Bool.not_true, Bool.not_false,
          Bool.false_eq_true, if_false, if_true]
    · refine ⟨"Unknown key '" ++ k ++ "' is not a valid variable name", ?_⟩
      have hw' : isWord k = false := by
        cases hkw : isWord k
        · rfl
        · exact absurd hkw hw
      simp only [substituteVars, hw', Bool.not_false, if_true]

/-- C7 (amended): when the formula passes validation, a bad binding (a
non-alphabetic key or a non-numeric value) makes `compute_formula` raise
the substitution loop's `ValueError` — the raise happens inside the
substitution step, so neither the domain pre-check nor evaluation runs.
If the formula fails validation, the corresponding string is returned
before the bindings are ever examined (see the counterexample). -/
theorem claim_C7 :
    (∀ input bs e, isWellFormed input (bs.map (·.1)) = .ok true →
      substituteVars input bs (rewriteKeywords input) = .error e →
      computeFormula input bs = .error e) ∧
    (∀ input formula bs, (∃ kv ∈ bs, isWord kv.1 = false ∨ isNumber kv.2 = false) →
      ∃ m, substituteVars input bs formula = .error (.valueError m)) := by
  constructor
  · intro input bs e hwf hsub
    unfold computeFormula
    rw [hwf, hsub]
  · intro input formula bs h
    exact substituteVars_bad input bs formula h

/-- Counterexample to C7 as stated: with the non-numeric binding value
`None` and the unbalanced formula `"("`, `compute_formula` RETURNS the
string `"Parentheses are not matched"` — it does not raise, and the
binding check does not run before validation. -/
theorem claim_C7_counterexample :
    computeFormula "(" [("x", PyObj.none)] = .ok (.inl "Parentheses are not matched") := by
  decide

/-- Witness for C7's quantified parts at formula `"y + 1"` with the
non-numeric binding `y = "bad"`. -/
theorem claim_C7_witness :
    computeFormula "y + 1" [("y", PyObj.str "bad")] =
      .error (.valueError "Value of 'y' = bad is not a number") :=
  claim_C7.1 "y + 1" [("y", PyObj.str "bad")]
    (.valueError "Value of 'y' = bad is not a number") (by decide) (by decide)

/-- C8 (amended): when evaluation raises a `ValueError` whose lowered text
contains `math domain error`, `compute_formula` extracts the first
`sqrt(...)` argument textually; if one is extractable it RETURNS a
`"Can't sqrt with value (...) in ..."` string — using the re-evaluated
value when the argument re-evaluates, and the raw argument text when it
does not — and only when no sqrt argument is extractable does it raise the
generic `"Value Error occurred in ..."` error. -/
theorem claim_C8 :
    ∀ f bs nf m, isWellFormed f (bs.map (·.1)) = .ok true →
      substituteVars f bs (rewriteKeywords f) = .ok (.inr nf) →
      findNegativeSqrt nf = Option.none →
      safeEval nf = .error (.valueError m) →
      containsStr (pyLower m) "math domain error" = true →
      computeFormula f bs =
        (if getSqrtValue nf ≠ "" then
          (match safeEval (getSqrtValue nf) with
            | .ok v => .ok (.inl ("Can't sqrt with value (" ++ valStr v ++ ") in " ++ nf))
            | .error _ => .ok (.inl ("Can't sqrt with value (" ++ getSqrtValue nf ++ ") in " ++ nf)))
        else .error (.valueError ("Value Error occurred in " ++ nf ++ ": " ++ m))) := by
  intro f bs nf m hwf hsub hpre heval hdom
  rw [computeFormula_eval_stage f bs nf hwf hsub, afterSubstitution_eval nf hpre]
  unfold handleEvalResult
  rw [heval]
  dsimp only
  rw [hdom]
  rfl

/-- Counterexample to C8 as stated: on the spec's own formula the first
sqrt argument is extractable (`"math.fmod(7*2+((5"`) but NOT re-evaluable
(it is a syntax fragment), and `compute_formula` still RETURNS a
`"Can't sqrt"` string built from the raw text — the claim says this case
raises a generic error. -/
theorem claim_C8_counterexample :
    computeFormula "(8+6*8) + sqrt(mod(7*2+(x+5), 3) + 4 - 50) + sqrt((8*7+5)+7)"
        [("x", PyObj.int 5)] =
      .ok (.inl "Can't sqrt with value (math.fmod(7*2+((5) in (8+6*8) + math.sqrt(math.fmod(7*2+((5)+5), 3) + 4 - 50) + math.sqrt((8*7+5)+7)") := by
  decide

/-- Witness for C8 at `"sqrt(4) + log(0-1)"`: the `log` of a negative
number raises the domain error, the first sqrt argument `"4"` is
extractable and re-evaluable, and a `"Can't sqrt"` string is returned. -/
theorem claim_C8_witness :
    computeFormula "sqrt(4) + log(0-1)" [] =
      (if getSqrtValue "math.sqrt(4) + math.log(0-1)" ≠ "" then
        (match safeEval (getSqrtValue "math.sqrt(4) + math.log(0-1)") with
          | .ok v => .ok (.inl ("Can't sqrt with value (" ++ valStr v ++
              ") in " ++ "math.sqrt(4) + math.log(0-1)"))
          | .error _ => .ok (.inl ("Can't sqrt with value (" ++
              getSqrtValue "math.sqrt(4) + math.log(0-1)" ++ ") in " ++
              "math.sqrt(4) + math.log(0-1)")))
      else .error (.valueError ("Value Error occurred in " ++ "math.sqrt(4) + math.log(0-1)" ++
        ": " ++ "math domain error"))) :=
  claim_C8 "sqrt(4) + log(0-1)" [] "math.sqrt(4) + math.log(0-1)" "math domain error"
    (by decide) (by decide) (by decide) (by decide) (by decide)

/-- C9 (amended): the defects returned as strings are exactly the
validation failures and the extractable-sqrt domain errors; an expression
that passes character validation but is syntactically malformed (such as
`"1+"`) raises a `ValueError` (`"Value Error occurred in ..."`), alongside
the raised `DivisionByZero` and `UndefinedName` — it is not returned as a
string. -/
theorem claim_C9 :
    ∀ f bs nf m, isWellFormed f (bs.map (·.1)) = .ok true →
      substituteVars f bs (rewriteKeywords f) = .ok (.inr nf) →
      findNegativeSqrt nf = Option.none →
      safeEval nf = .error (.valueError m) →
      containsStr (pyLower m) "math domain error" = false →
      computeFormula f bs =
        .error (.valueError ("Value Error occurred in " ++ nf ++ ": " ++ m)) := by
  intro f bs nf m hwf hsub hpre heval hdom
  rw [computeFormula_eval_stage f bs nf hwf hsub, afterSubstitution_eval nf hpre]
  unfold handleEvalResult
  rw [heval]
  dsimp only
  rw [hdom]
  rfl

/-- Counterexample to C9 as stated: the recoverable user-formula defect
`"1+"` (passes validation, malformed as an expression) is RAISED as a
`ValueError`, not returned as a descriptive string. -/
theorem claim_C9_counterexample :
    computeFormula "1+" [] =
      .error (.valueError "Value Error occurred in 1+: Invalid expression: 1+ - invalid syntax") := by
  decide

/-- Witness for C9 at the malformed expression `"1+"`. -/
theorem claim_C9_witness :
    computeFormula "2**" [] =
      .error (.valueError ("Value Error occurred in " ++ "2**" ++ ": " ++
        "Invalid expression: 2** - invalid syntax")) :=
  claim_C9 "2**" [] "2**" "Invalid expression: 2** - invalid syntax"
    (by decide) (by decide) (by decide) (by decide) (by decide)

theorem canSqrtMsg_ne_undef (a b : String) :
    ("Can't sqrt with value (" ++ a ++ ") in " ++ b) ≠ "Undefined variable" := by
  intro h
  have hl := congrArg String.length h
  simp only [String.length_append] at hl
  have h1 : ("Can't sqrt with value (" : String).length = 23 := rfl
  have h2 : (") in " : String).length = 5 := rfl
  have h3 : ("Undefined variable" : String).length = 18 := rfl
  rw [h1, h2, h3] at hl
  omega

theorem substituteVars_no_inl (input : String) (bs : List (String × PyObj)) :
    ∀ formula s, substituteVars input bs formula ≠ .ok (.inl s) := by
  induction bs with
  | nil =>
    intro formula s h
    simp [substituteVars] at h
  | cons kv rest ih =>
    obtain ⟨k, v⟩ := kv
    intro formula s h
    rw [substituteVars] at h
    split_ifs at h with h1 h2 h3 h4 <;>
      first
        | (rw [not_not] at h4
           subst h4
           exact h2 rfl)
        | exact ih _ s h

theorem isWellFormed_error_cases (f : String) (u : List String) (msg : String)
    (h : isWellFormed f u = .error msg) :
    msg = "Parentheses are not matched" ∨ msg = "Formula is empty" := by
  rw [isWellFormed] at h
  split_ifs at h <;>
    first
      | exact Or.inl (Except.error.inj h).symm
      | exact Or.inr (Except.error.inj h).symm

theorem handleEvalResult_no_undef (nf : String) :
    handleEvalResult nf ≠ .ok (.inl "Undefined variable") := by
  intro h
  rw [handleEvalResult] at h
  cases hse : safeEval nf with
  | ok v => rw [hse] at h; cases h
  | error e =>
    rw [hse] at h
    cases e with
    | valueError m =>
      dsimp only at h
      split_ifs at h with h1 h2
      all_goals
        first
          | cases h
          | (cases hsq : safeEval (getSqrtValue nf) with
             | ok v =>
               rw [hsq] at h
               exact canSqrtMsg_ne_undef (valStr v) nf (Sum.inl.inj (Except.ok.inj h))
             | error e' =>
               rw [hsq] at h
               exact canSqrtMsg_ne_undef (getSqrtValue nf) nf (Sum.inl.inj (Except.ok.inj h)))
    | nameError m => cases h
    | zeroDivisionError m => cases h
    | typeError m => cases h

/-- C10: `compute_formula` never returns the string `'Undefined variable'`:
the branch that would return it requires a binding value that is `None`,
but every binding value is checked with `is_number` first, which rejects
`None` by raising, so the branch is unreachable — and no other code path
produces that string. -/
theorem claim_C10 :
    ∀ f bs, computeFormula f bs ≠ .ok (.inl "Undefined variable") := by
  intro f bs h
  unfold computeFormula at h
  cases hwf : isWellFormed f (bs.map (·.1)) with
  | error msg =>
    rw [hwf] at h
    have hmsg := Sum.inl.inj (Except.ok.inj h)
    rcases isWellFormed_error_cases f _ msg hwf with rfl | rfl <;>
      exact absurd hmsg (by decide)
  | ok b =>
    rw [hwf] at h
    cases b with
    | false =>
      have hmsg := Sum.inl.inj (Except.ok.inj h)
      exact absurd hmsg (by decide)
    | true =>
      cases hsub : substituteVars f bs (rewriteKeywords f) with
      | error e => rw [hsub] at h; cases h
      | ok r =>
        rw [hsub] at h
        cases r with
        | inl s => exact substituteVars_no_inl f bs _ s hsub
        | inr nf =>
          dsimp only at h
          rw [afterSubstitution] at h
          cases hps : findNegativeSqrt nf with
          | some p =>
            obtain ⟨v, fA⟩ := p
            rw [hps] at h
            exact canSqrtMsg_ne_undef (valStr v) fA (Sum.inl.inj (Except.ok.inj h))
          | none =>
            rw [hps] at h
            exact handleEvalResult_no_undef nf h

/-- Witness for C10 at the concrete call `compute_formula("x + 1", {x: 7})`. -/
theorem claim_C10_witness :
    computeFormula "x + 1" [("x", PyObj.int 7)] ≠ .ok (.inl "Undefined variable") :=
  claim_C10 "x + 1" [("x", PyObj.int 7)]
